import Mathlib

/-!
# Verification of the smartaccounts client library core

Shallow embedding of the authenticated request pipeline of the
`smartaccounts` Go client library: token acquisition and memoization
(`getToken`), rate-limited request dispatch and response classification
(`makeRequest`), paginated license collection (`GetSmartLicenseUsage`),
and the JSON field mapping of the EA consumption report
(`GetEASmartAccountSubscriptionConsumptionReport`).

Time is modelled in integer seconds.  Stateful Go code becomes explicit
state passing; outcomes of external effects (the token endpoint, the
rate limiter bucket, the HTTP transport) are supplied as environment
values; side-effect order is captured as an explicit event trace.
-/

namespace SmartAccounts

/-- `Token` from the source: access token plus expiry bookkeeping.
`expiresAt` is an absolute timestamp in integer seconds (the Go code
stores a `time.Time` built with `time.Unix`, i.e. whole seconds). -/
structure Token where
  accessToken : String
  tokenType : String
  expiresIn : Int
  expiresAt : Int
  deriving DecidableEq, Repr

/-- The closed error taxonomy produced by the pipeline.  The five sentinel
constructors correspond to the constant `Err` values of the source
(`ErrBadRequest` …); `unknownErr` carries the raw status text as in
`fmt.Errorf("unknown error: %s", res.Status)`; `transportErr` models an
error returned by the HTTP client; `decodeErr` a JSON decode failure. -/
inductive CCWError where
  | errBadRequest
  | errUnauthorized
  | errForbidden
  | errNotFound
  | errInternalError
  | unknownErr (statusText : String)
  | transportErr (msg : String)
  | decodeErr (msg : String)
  deriving DecidableEq, Repr

/-- `Role` from the source. -/
structure Role where
  role : String
  deriving DecidableEq, Repr

/-- `VirtualAccount` from the source. -/
structure VirtualAccount where
  isDefault : String
  name : String
  description : String
  commerceAccessLevel : String
  deriving DecidableEq, Repr

/-- `LicenseSubstitution` from the source. -/
structure LicenseSubstitution where
  licenseName : String
  substitutedLicense : String
  substitutedQuantity : Int
  substitutionType : String
  deriving DecidableEq, Repr

/-- `LicenseDetail` from the source. -/
structure LicenseDetail where
  licenseType : String
  quantity : Int
  startDate : String
  endDate : String
  subscriptionID : String
  status : String
  deriving DecidableEq, Repr

/-- `License` from the source. -/
structure License where
  licenseSubstitutions : List LicenseSubstitution
  isPortable : Bool
  license : String
  virtualAccount : String
  quantity : Int
  inUse : Int
  available : Int
  status : String
  billingType : String
  ahaApps : Bool
  pendingQuantity : Int
  reserved : Int
  licenseDetails : List LicenseDetail
  deriving DecidableEq, Repr

/-- `LicenseResponse` from the source: one page of the paginated license
listing. -/
structure LicenseResponse where
  totalRecords : Int
  licenses : List License
  statusMessage : String
  status : String
  deriving DecidableEq, Repr

/-- `SmartAccount` from the source.  `VirtualAccounts` and `Licenses` are
pointers to slices in Go (`*[]VirtualAccount`), modelled as `Option` of a
list; `none` is the nil pointer. -/
structure SmartAccount where
  accountStatus : String
  accountDomain : String
  accountName : String
  accountType : String
  roles : List Role
  virtualAccounts : Option (List VirtualAccount)
  licenses : Option (List License)
  deriving DecidableEq, Repr

/-! ## Token manager (`getToken`) -/

/-- Outcome of the token-exchange POST against
`https://cloudsso.cisco.com/as/token.oauth2`, supplied by the
environment: the transport can fail, the body can fail to decode, or a
token wire payload `{access_token, token_type, expires_in}` is decoded. -/
inductive TokenFetchOutcome where
  | netErr (msg : String)
  | decodeFail (msg : String)
  | ok (accessToken : String) (tokenType : String) (expiresIn : Int)
  deriving DecidableEq, Repr

deriving instance DecidableEq for Except

/-- Result of one `getToken` call: the returned value or error, the
client's token slot after the call, and how many token-exchange POSTs
were dispatched. -/
structure GetTokenResult where
  result : Except CCWError Token
  newToken : Option Token
  httpCalls : Nat
  deriving DecidableEq, Repr

/-- The memoization guard of `getToken`:
`c.token != nil && c.token.ExpiresAt.Sub(now).Minutes() > 5`.
In integer seconds, a duration is strictly more than 5 minutes exactly
when it exceeds 300 seconds. -/
def tokenValid (tok : Option Token) (now : Int) : Bool :=
  match tok with
  | none => false
  | some t => decide (t.expiresAt - now > 300)

/-- The refresh path of `getToken`: one password-grant exchange via a
fresh `http.Client` (`client.Do`).  Transport and decode failures are
surfaced and leave the token slot unchanged; on success
`ExpiresAt = time.Unix(now.Unix()+t.ExpiresIn, 0)` is computed and the
new token overwrites the slot. -/
def refreshToken (tok : Option Token) (now : Int) (outcome : TokenFetchOutcome) :
    GetTokenResult :=
  match outcome with
  | .netErr msg => { result := .error (.transportErr msg), newToken := tok, httpCalls := 1 }
  | .decodeFail msg => { result := .error (.decodeErr msg), newToken := tok, httpCalls := 1 }
  | .ok at_ tt ei =>
      let t : Token := { accessToken := at_, tokenType := tt, expiresIn := ei,
                         expiresAt := now + ei }
      { result := .ok t, newToken := some t, httpCalls := 1 }

/-- `getToken` from the source.  If the cached token is still valid
(`tokenValid`) it is returned unchanged with no network call; otherwise
the refresh path runs. -/
def getToken (tok : Option Token) (now : Int) (outcome : TokenFetchOutcome) :
    GetTokenResult :=
  match tok with
  | some t =>
      if t.expiresAt - now > 300 then
        { result := .ok t, newToken := some t, httpCalls := 0 }
      else refreshToken (some t) now outcome
  | none => refreshToken none now outcome

/-! ## Request executor (`makeRequest`) -/

/-- An HTTP response as seen by `makeRequest`: numeric status code, the
raw status text (Go's `res.Status`, e.g. `"201 Created"`), and a body of
abstract type `β`. -/
structure HTTPResponse (β : Type) where
  statusCode : Nat
  status : String
  body : β

/-- Environment for one `makeRequest` call: the current time, the
token-endpoint outcome (used only if a refresh is needed), whether
`lim.Allow()` finds a permit, whether the caller's context is cancelled,
and the transport outcome of the main HTTP call when dispatched with a
live context. -/
structure MakeReqEnv (β : Type) where
  now : Int
  tokenOutcome : TokenFetchOutcome
  limAvailable : Bool
  ctxCancelled : Bool
  httpResult : Except String (HTTPResponse β)

/-- Observable side-effect events of one `makeRequest` call, in order:
`tokenHTTP` is the token-exchange POST inside `getToken`;
`limAllowConsume` is a successful `lim.Allow()` consuming a permit;
`limWait` is the suspension in `lim.Wait(ctx)` (taken when the bucket is
empty); `apiHTTP` is the dispatch of the main request via
`c.HTTPClient.Do`. -/
inductive Ev where
  | tokenHTTP
  | limAllowConsume
  | limWait
  | apiHTTP
  deriving DecidableEq, Repr

/-- Result of one `makeRequest` call: the error or decoded value
(`ok none` would be a success with no decode, `ok (some v)` a decoded
body), the token slot after the call, and the event trace. -/
structure MakeReqOut (α : Type) where
  result : Except CCWError (Option α)
  newToken : Option Token
  events : List Ev

/-- The status-classification switch of `makeRequest`, entered only when
`res.StatusCode != 200`: the five mapped sentinel errors, and otherwise
`fmt.Errorf("unknown error: %s", res.Status)`. -/
def classifyStatus {β : Type} (res : HTTPResponse β) : CCWError :=
  if res.statusCode = 400 then .errBadRequest
  else if res.statusCode = 401 then .errUnauthorized
  else if res.statusCode = 403 then .errForbidden
  else if res.statusCode = 404 then .errNotFound
  else if res.statusCode = 500 then .errInternalError
  else .unknownErr res.status

/-- `makeRequest` from the source.  Steps, in source order: obtain a
token via `getToken` (propagating its error); set headers; if
`!c.lim.Allow()` then `c.lim.Wait(ctx)` — note the source discards
`Wait`'s return value, so a cancelled context does not stop the call
here; dispatch via `c.HTTPClient.Do` with the request bound to `ctx`
(a cancelled context makes the transport itself fail); then classify:
any status other than 200 maps through `classifyStatus`, a subsequent
dead check would return success for 201, and a 200 body is decoded with
`dec` (failure surfacing as a decode error). -/
def makeRequest {α β : Type} (tok : Option Token) (env : MakeReqEnv β)
    (dec : β → Except String α) : MakeReqOut α :=
  let g := getToken tok env.now env.tokenOutcome
  let tokEvents : List Ev := List.replicate g.httpCalls .tokenHTTP
  match g.result with
  | .error e => { result := .error e, newToken := g.newToken, events := tokEvents }
  | .ok _token =>
    let evs := tokEvents ++
      (if env.limAvailable then [Ev.limAllowConsume] else [Ev.limWait]) ++ [Ev.apiHTTP]
    let httpRes : Except String (HTTPResponse β) :=
      if env.ctxCancelled then .error "context canceled" else env.httpResult
    match httpRes with
    | .error msg => { result := .error (.transportErr msg), newToken := g.newToken, events := evs }
    | .ok res =>
      if res.statusCode ≠ 200 then
        { result := .error (classifyStatus res), newToken := g.newToken, events := evs }
      else if res.statusCode == 201 then
        { result := .ok none, newToken := g.newToken, events := evs }
      else
        match dec res.body with
        | .error msg =>
            { result := .error (.decodeErr msg), newToken := g.newToken, events := evs }
        | .ok v => { result := .ok (some v), newToken := g.newToken, events := evs }

/-! ## Paginated license fetch (`GetSmartLicenseUsage`) -/

/-- Result of running a Go function that may dereference a nil pointer
(`panics`) or loop forever (`diverges`, reached only when the fuel bound
of the embedding is exhausted). -/
inductive RunResult (α : Type) where
  | panics
  | diverges
  | ok (a : α)
  deriving DecidableEq, Repr

/-- The inner `for {}` loop of `GetSmartLicenseUsage` for one virtual
account.  `fetch offset` is the outcome of the `makeRequest` POST to the
licenses endpoint with `LicenseRequest{Offset: offset, Limit: limit,
VirtualAccounts: []string{va.Name}}`.  On a fetch error the source logs
and `break`s, keeping the accumulator; otherwise it appends
`lr.Licenses`, `break`s if `lr.TotalRecords < limit`, advances
`offset += limit`, and `break`s if `offset > lr.TotalRecords`.  The
trace `tr` records each offset actually fetched; `none` models the loop
not terminating within `fuel` iterations. -/
def paginateVA (fetch : Int → Except CCWError LicenseResponse) (limit : Int) :
    Nat → Int → List License → List Int → Option (List License × List Int)
  | 0, _, _, _ => none
  | fuel + 1, offset, acc, tr =>
    match fetch offset with
    | .error _ => some (acc, tr ++ [offset])
    | .ok lr =>
      let acc2 := acc ++ lr.licenses
      let tr2 := tr ++ [offset]
      if lr.totalRecords < limit then some (acc2, tr2)
      else if offset + limit > lr.totalRecords then some (acc2, tr2)
      else paginateVA fetch limit fuel (offset + limit) acc2 tr2

/-- The outer `for _, va := range *sa.VirtualAccounts` loop: each virtual
account runs the inner pagination starting at `offset = 0` with
`limit = 100`, appending into the shared `licenses` accumulator.  The
trace pairs each fetched offset with the virtual-account name. -/
def goVAs (fetch : String → Int → Except CCWError LicenseResponse) (fuel : Nat) :
    List VirtualAccount → List License → List (String × Int) →
    Option (List License × List (String × Int))
  | [], acc, tr => some (acc, tr)
  | va :: rest, acc, tr =>
    match paginateVA (fetch va.name) 100 fuel 0 acc [] with
    | none => none
    | some (acc2, offs) =>
        goVAs fetch fuel rest acc2 (tr ++ offs.map (fun o => (va.name, o)))

/-- `GetSmartLicenseUsage` from the source.  It first ranges over
`*sa.VirtualAccounts` — an unguarded dereference, so a nil pointer
panics before any other work.  The function's only `return nil, err`
paths are `json.Marshal` of a `LicenseRequest` and `http.NewRequest`
with a constant method and well-formed URL, both infallible, so the
embedding returns the accumulator with a nil error (`Except.ok`)
whenever the loops finish.  The result carries the license accumulator
and the trace of `(virtual-account name, offset)` page fetches. -/
def GetSmartLicenseUsage (fetch : String → Int → Except CCWError LicenseResponse)
    (fuel : Nat) (sa : SmartAccount) :
    RunResult (Except CCWError (List License) × List (String × Int)) :=
  match sa.virtualAccounts with
  | none => .panics
  | some vas =>
    match goVAs fetch fuel vas [] [] with
    | none => .diverges
    | some (acc, tr) => .ok (.ok acc, tr)

/-! ## EA consumption report decoding (`easubscriptions.go`)

The response of `GetEASmartAccountSubscriptionConsumptionReport` is
decoded by `encoding/json` into the `EA…` structs.  JSON values are
modelled by `JValue`; Go's key-to-field matching accepts a key for a
tagged field when the key equals the tag up to ASCII case folding (exact
matches and case-insensitive matches assign to the same field, last
occurrence winning), and a missing or type-mismatched key leaves the
field at its zero value. -/

/-- A JSON value. -/
inductive JValue where
  | null
  | bool (b : Bool)
  | num (n : Int)
  | str (s : String)
  | arr (xs : List JValue)
  | obj (fields : List (String × JValue))

/-- ASCII case folding of one character, as Go's `EqualFold` applies to
the ASCII tags at hand. -/
def foldChar (c : Char) : Char :=
  if 'A' ≤ c ∧ c ≤ 'Z' then Char.ofNat (c.toNat + 32) else c

/-- Case-insensitive key comparison (ASCII fold). -/
def eqFold (a b : String) : Bool :=
  a.data.map foldChar == b.data.map foldChar

/-- Go `encoding/json` field lookup: scan the object's keys in order and
keep the value of the last key matching the struct tag up to case
folding (for structs whose tags are pairwise distinct under folding this
is exactly Go's behaviour, exact matches included). -/
def jsonField (fields : List (String × JValue)) (tag : String) : Option JValue :=
  fields.foldl (fun acc kv => if eqFold kv.1 tag then some kv.2 else acc) none

/-- A string field: zero value `""` when missing or not a string. -/
def jString : Option JValue → String
  | some (.str s) => s
  | _ => ""

/-- An int field: zero value `0` when missing or not a number. -/
def jInt : Option JValue → Int
  | some (.num n) => n
  | _ => 0

/-- A bool field: zero value `false` when missing or not a boolean. -/
def jBool : Option JValue → Bool
  | some (.bool b) => b
  | _ => false

/-- A slice field: zero value `[]` when missing or not an array. -/
def jArr : Option JValue → List JValue
  | some (.arr xs) => xs
  | _ => []

/-- The fields of a JSON object, `[]` for any other value. -/
def jFields : JValue → List (String × JValue)
  | .obj fs => fs
  | _ => []

/-- `EACommerceSKU` from the source. -/
structure EACommerceSKU where
  eol : Bool
  custSuiteID : Int
  commerceSKU : String
  commerceSKUDescription : String
  suiteName : String
  custSuiteName : String
  eolMessage : String
  purchasedEntitlements : Int
  premierEntitlements : Int
  growthAllowance : Int
  totalEntitlements : Int
  preEAConsumption : Int
  licenseGenerated : Int
  licenseMigrated : Int
  c1ToDNAMigratedCount : Int
  totalConsumption : Int
  remainingEntitlements : Int
  softwareDownloads : Int
  healthMessage : String
  calculationMethod : String
  commitmentType : String
  deriving DecidableEq, Repr

/-- `EASuite` from the source. -/
structure EASuite where
  custSuiteID : Int
  suiteName : String
  custSuiteName : String
  purchasedEntitlements : Int
  premierEntitlements : Int
  growthAllowance : Int
  totalEntitlements : Int
  preEAConsumption : Int
  licenseGenerated : Int
  licenseMigrated : Int
  c1ToDNAMigratedCount : Int
  totalConsumption : Int
  remainingEntitlements : Int
  softwareDownloads : Int
  healthMessage : String
  calculationMethod : String
  commitmentType : String
  commerceSkUs : List EACommerceSKU
  deriving DecidableEq, Repr

/-- `EAVirtualAccount` from the source. -/
structure EAVirtualAccount where
  virtualAccountID : Int
  virtualAccountName : String
  suites : List EASuite
  deriving DecidableEq, Repr

/-- `EAAccount` from the source.  The `VirtualAccounts` field carries the
struct tag `vitualAccounts` — the upstream's misspelled wire name. -/
structure EAAccount where
  smartAccountID : Int
  smartAccountName : String
  virtualAccounts : List EAVirtualAccount
  deriving DecidableEq, Repr

/-- `EASubscription` from the source. -/
structure EASubscription where
  subscriptionID : String
  status : String
  startDate : String
  endDate : String
  duration : Int
  remainingDuration : Int
  durationInMonths : Int
  remainingDurationInMonths : Int
  nextTrueForward : String
  architectureName : String
  accounts : List EAAccount
  deriving DecidableEq, Repr

/-- `EASmartAccountSubscriptionConsumptionReportResponse` from the
source. -/
structure EASmartAccountSubscriptionConsumptionReportResponse where
  subscriptions : List EASubscription
  deriving DecidableEq, Repr

/-- Decode an `EACommerceSKU` by its struct tags. -/
def decodeEACommerceSKU (j : JValue) : EACommerceSKU :=
  let fs := jFields j
  { eol := jBool (jsonField fs "eol")
    custSuiteID := jInt (jsonField fs "custSuiteId")
    commerceSKU := jString (jsonField fs "commerceSku")
    commerceSKUDescription := jString (jsonField fs "commerceSkuDescription")
    suiteName := jString (jsonField fs "suiteName")
    custSuiteName := jString (jsonField fs "custSuiteName")
    eolMessage := jString (jsonField fs "eolMessage")
    purchasedEntitlements := jInt (jsonField fs "purchasedEntitlements")
    premierEntitlements := jInt (jsonField fs "premierEntitlements")
    growthAllowance := jInt (jsonField fs "growthAllowance")
    totalEntitlements := jInt (jsonField fs "totalEntitlements")
    preEAConsumption := jInt (jsonField fs "preEAConsumption")
    licenseGenerated := jInt (jsonField fs "licenseGenerated")
    licenseMigrated := jInt (jsonField fs "licenseMigrated")
    c1ToDNAMigratedCount := jInt (jsonField fs "c1ToDNAMigratedCount")
    totalConsumption := jInt (jsonField fs "totalConsumption")
    remainingEntitlements := jInt (jsonField fs "remainingEntitlements")
    softwareDownloads := jInt (jsonField fs "softwareDownloads")
    healthMessage := jString (jsonField fs "healthMessage")
    calculationMethod := jString (jsonField fs "calculationMethod")
    commitmentType := jString (jsonField fs "commitmentType") }

/-- Decode an `EASuite` by its struct tags. -/
def decodeEASuite (j : JValue) : EASuite :=
  let fs := jFields j
  { custSuiteID := jInt (jsonField fs "custSuiteId")
    suiteName := jString (jsonField fs "suiteName")
    custSuiteName := jString (jsonField fs "custSuiteName")
    purchasedEntitlements := jInt (jsonField fs "purchasedEntitlements")
    premierEntitlements := jInt (jsonField fs "premierEntitlements")
    growthAllowance := jInt (jsonField fs "growthAllowance")
    totalEntitlements := jInt (jsonField fs "totalEntitlements")
    preEAConsumption := jInt (jsonField fs "preEAConsumption")
    licenseGenerated := jInt (jsonField fs "licenseGenerated")
    licenseMigrated := jInt (jsonField fs "licenseMigrated")
    c1ToDNAMigratedCount := jInt (jsonField fs "c1ToDNAMigratedCount")
    totalConsumption := jInt (jsonField fs "totalConsumption")
    remainingEntitlements := jInt (jsonField fs "remainingEntitlements")
    softwareDownloads := jInt (jsonField fs "softwareDownloads")
    healthMessage := jString (jsonField fs "healthMessage")
    calculationMethod := jString (jsonField fs "calculationMethod")
    commitmentType := jString (jsonField fs "commitmentType")
    commerceSkUs := (jArr (jsonField fs "commerceSkus")).map decodeEACommerceSKU }

/-- Decode an `EAVirtualAccount` by its struct tags. -/
def decodeEAVirtualAccount (j : JValue) : EAVirtualAccount :=
  let fs := jFields j
  { virtualAccountID := jInt (jsonField fs "virtualAccountId")
    virtualAccountName := jString (jsonField fs "virtualAccountName")
    suites := (jArr (jsonField fs "suites")).map decodeEASuite }

/-- Decode an `EAAccount` by its struct tags.  The `virtualAccounts`
field is populated from the wire key `vitualAccounts` — the misspelled
tag in the source (`json:"vitualAccounts"`). -/
def decodeEAAccount (j : JValue) : EAAccount :=
  let fs := jFields j
  { smartAccountID := jInt (jsonField fs "smartAccountId")
    smartAccountName := jString (jsonField fs "smartAccountName")
    virtualAccounts := (jArr (jsonField fs "vitualAccounts")).map decodeEAVirtualAccount }

/-- Decode an `EASubscription` by its struct tags. -/
def decodeEASubscription (j : JValue) : EASubscription :=
  let fs := jFields j
  { subscriptionID := jString (jsonField fs "subscriptionID")
    status := jString (jsonField fs "status")
    startDate := jString (jsonField fs "startDate")
    endDate := jString (jsonField fs "endDate")
    duration := jInt (jsonField fs "duration")
    remainingDuration := jInt (jsonField fs "remainingDuration")
    durationInMonths := jInt (jsonField fs "durationInMonths")
    remainingDurationInMonths := jInt (jsonField fs "remainingDurationInMonths")
    nextTrueForward := jString (jsonField fs "nextTrueForward")
    architectureName := jString (jsonField fs "architectureName")
    accounts := (jArr (jsonField fs "accounts")).map decodeEAAccount }

/-- The top-level decode performed by `makeRequest` for the consumption
report: a JSON object decodes field-wise, anything else is a type
mismatch error from `json.Decode`. -/
def decodeEAReport (j : JValue) :
    Except String EASmartAccountSubscriptionConsumptionReportResponse :=
  match j with
  | .obj fs =>
      .ok { subscriptions := (jArr (jsonField fs "subscriptions")).map decodeEASubscription }
  | _ => .error "json: cannot unmarshal value into Go value"

/-- `GetEASmartAccountSubscriptionConsumptionReport` from the source: it
builds the consumption-report GET request and runs it through
`makeRequest`, decoding the body into
`EASmartAccountSubscriptionConsumptionReportResponse`. -/
def GetEASmartAccountSubscriptionConsumptionReport (tok : Option Token)
    (env : MakeReqEnv JValue) :
    MakeReqOut EASmartAccountSubscriptionConsumptionReportResponse :=
  makeRequest tok env decodeEAReport

/-! ## Concrete fixtures used by witnesses and counterexamples -/

/-- A token that is valid at time `0`: `4000 - 0 > 300`. -/
def tokenA : Token :=
  { accessToken := "tokA", tokenType := "Bearer", expiresIn := 3600, expiresAt := 4000 }

/-- A decoder for `Unit` results that always succeeds. -/
def decUnit : String → Except String Unit := fun _ => .ok ()

/-- An environment whose HTTP call returns status 201: bucket full,
context live, token-exchange unused because `tokenA` is cached. -/
def env201 : MakeReqEnv String :=
  { now := 0, tokenOutcome := .ok "t" "Bearer" 3600, limAvailable := true,
    ctxCancelled := false,
    httpResult := .ok { statusCode := 201, status := "201 Created", body := "" } }

/-- A sample license record. -/
def licSample : License :=
  { licenseSubstitutions := [], isPortable := false, license := "UC Manager Essential",
    virtualAccount := "VA-1", quantity := 1, inUse := 0, available := 1,
    status := "In Compliance", billingType := "PREPAID", ahaApps := false,
    pendingQuantity := 0, reserved := 0, licenseDetails := [] }

/-! ## Theorems -/

/-- An environment whose HTTP call returns 404 with a full bucket and a
live context. -/
def env404 : MakeReqEnv String :=
  { now := 0, tokenOutcome := .ok "t" "Bearer" 3600, limAvailable := true,
    ctxCancelled := false,
    httpResult := .ok { statusCode := 404, status := "404 Not Found", body := "" } }

/-- An environment with an empty rate-limiter bucket and a cancelled
context; the transport would deliver a 200 response if dispatched with a
live context. -/
def envCancelled : MakeReqEnv String :=
  { now := 0, tokenOutcome := .ok "t" "Bearer" 3600, limAvailable := false,
    ctxCancelled := true,
    httpResult := .ok { statusCode := 200, status := "200 OK", body := "" } }

/-- True exactly for the events that dispatch an outbound HTTP request. -/
def isHTTPDispatch : Ev → Bool
  | .tokenHTTP => true
  | .apiHTTP => true
  | _ => false

/-- True exactly for the events that acquire from the rate limiter
(a successful `Allow` or a `Wait`). -/
def isLimiterAcquire : Ev → Bool
  | .limAllowConsume => true
  | .limWait => true
  | _ => false

/-- Helper for `allDispatchesRateLimited`: `seen` records whether a
limiter acquisition has occurred earlier in the trace. -/
def dispatchesAcquiredAux (seen : Bool) : List Ev → Bool
  | [] => true
  | e :: rest =>
    if isHTTPDispatch e && !seen then false
    else dispatchesAcquiredAux (seen || isLimiterAcquire e) rest

/-- Formalization of claim C7's property over a trace: every HTTP
dispatch event is preceded by at least one rate-limiter acquisition. -/
def allDispatchesRateLimited (evs : List Ev) : Bool :=
  dispatchesAcquiredAux false evs

/-- Helper for `apiDispatchesRateLimited`. -/
def apiAcquiredAux (seen : Bool) : List Ev → Bool
  | [] => true
  | e :: rest =>
    if e == .apiHTTP && !seen then false
    else apiAcquiredAux (seen || isLimiterAcquire e) rest

/-- The amended C7 property over a trace: every `apiHTTP` dispatch (the
request issued by `makeRequest` itself) is preceded by a rate-limiter
acquisition; token-exchange dispatches are not covered. -/
def apiDispatchesRateLimited (evs : List Ev) : Bool :=
  apiAcquiredAux false evs

/-- An environment for a call that starts with no cached token and a
successful token exchange. -/
def envNoToken : MakeReqEnv String :=
  { now := 0, tokenOutcome := .ok "tokA" "Bearer" 3600, limAvailable := true,
    ctxCancelled := false,
    httpResult := .ok { statusCode := 200, status := "200 OK", body := "" } }

/-- A license page with `n` copies of the sample license and a reported
total of `total`. -/
def pageOf (n : Nat) (total : Int) : LicenseResponse :=
  { totalRecords := total, licenses := List.replicate n licSample,
    statusMessage := "", status := "" }

/-- A paged source reporting `totalRecords = 250`: full pages of 100 at
offsets 0 and 100, a last page of 50 elsewhere. -/
def fetch250 : String → Int → Except CCWError LicenseResponse := fun _ offset =>
  if offset = 0 ∨ offset = 100 then .ok (pageOf 100 250) else .ok (pageOf 50 250)

/-- A paged source returning short pages (40 items) while reporting
`totalRecords = 150`. -/
def fetchShortPages : Int → Except CCWError LicenseResponse := fun _ =>
  .ok (pageOf 40 150)

/-- A virtual account fixture. -/
def va1 : VirtualAccount :=
  { isDefault := "false", name := "VA-1", description := "", commerceAccessLevel := "" }

/-- A second virtual account fixture. -/
def va2 : VirtualAccount :=
  { isDefault := "false", name := "VA-2", description := "", commerceAccessLevel := "" }

/-- A smart account with the single virtual account `va1`. -/
def sa250 : SmartAccount :=
  { accountStatus := "Active", accountDomain := "example.com",
    accountName := "Example", accountType := "CUSTOMER", roles := [],
    virtualAccounts := some [va1], licenses := none }

/-- A smart account with virtual accounts `va1` and `va2`. -/
def saTwoVAs : SmartAccount :=
  { accountStatus := "Active", accountDomain := "example.com",
    accountName := "Example", accountType := "CUSTOMER", roles := [],
    virtualAccounts := some [va1, va2], licenses := none }

/-- A source where every page fetch fails. -/
def fetchAlwaysFails : String → Int → Except CCWError LicenseResponse :=
  fun _ _ => .error .errInternalError

/-- A source failing for `va1` and serving a single one-item page
(reported total 1) for every other virtual account. -/
def fetchVA1Fails : String → Int → Except CCWError LicenseResponse := fun name _ =>
  if name = "VA-1" then .error .errInternalError else .ok (pageOf 1 1)

/-- A wire-format EA virtual account. -/
def eaVAJson : JValue :=
  .obj [("virtualAccountId", .num 7), ("virtualAccountName", .str "VA-EA"),
        ("suites", .arr [])]

/-- A wire-format consumption-report body whose single account lists its
virtual accounts under the key `vaKey`. -/
def eaBody (vaKey : String) : JValue :=
  .obj [("subscriptions", .arr
    [.obj [("subscriptionID", .str "Sub100"),
           ("accounts", .arr
             [.obj [("smartAccountId", .num 1), ("smartAccountName", .str "SA"),
                    (vaKey, .arr [eaVAJson])]])]])]

/-- An environment delivering a 200 response with the given JSON body. -/
def envEA (body : JValue) : MakeReqEnv JValue :=
  { now := 0, tokenOutcome := .ok "t" "Bearer" 3600, limAvailable := true,
    ctxCancelled := false,
    httpResult := .ok { statusCode := 200, status := "200 OK", body := body } }

/-- The decoded form of `eaVAJson`. -/
def eaVADecoded : EAVirtualAccount :=
  { virtualAccountID := 7, virtualAccountName := "VA-EA", suites := [] }

/-- The decoded account of the fixture body, with the given virtual
accounts. -/
def eaAccountWith (vas : List EAVirtualAccount) : EAAccount :=
  { smartAccountID := 1, smartAccountName := "SA", virtualAccounts := vas }

/-- The decoded subscription of the fixture body. -/
def eaSubscriptionWith (vas : List EAVirtualAccount) : EASubscription :=
  { subscriptionID := "Sub100", status := "", startDate := "", endDate := "",
    duration := 0, remainingDuration := 0, durationInMonths := 0,
    remainingDurationInMonths := 0, nextTrueForward := "", architectureName := "",
    accounts := [eaAccountWith vas] }

/-- The decoded consumption report with the given virtual accounts on
its single account. -/
def eaRespWith (vas : List EAVirtualAccount) :
    EASmartAccountSubscriptionConsumptionReportResponse :=
  { subscriptions := [eaSubscriptionWith vas] }

/-- Claim C2 (code bug): the source contains
`if res.StatusCode == http.StatusCreated { return nil }`, intending 201
to be a success with no decode, but it sits after
`if res.StatusCode != http.StatusOK { … return ccwErr }`, which already
returned.  Evaluating the embedding at a status-201 response: the call
returns the unknown-error value carrying `"201 Created"`, not success. -/
theorem makeRequest_201_is_unknown_error :
    (makeRequest (some tokenA) env201 decUnit).result
      = .error (.unknownErr "201 Created") := by
  decide

/-- The 201 branch of `makeRequest` is dead: whenever the response was
delivered and its status is 201, the result is an error (never the
`ok none` that the 201 branch would produce). -/
theorem makeRequest_201_branch_dead {α β : Type} (tok : Option Token)
    (env : MakeReqEnv β) (dec : β → Except String α) (res : HTTPResponse β)
    (hctx : env.ctxCancelled = false) (hres : env.httpResult = .ok res)
    (h201 : res.statusCode = 201) :
    (makeRequest tok env dec).result ≠ .ok none := by
  simp only [makeRequest]
  rcases htok : (getToken tok env.now env.tokenOutcome).result with e | t
  · simp
  · simp only [hctx, hres, if_false, Bool.false_eq_true, ite_false, h201]
    simp

/-- Claim C3: `getToken` memoization and refresh.  If a cached token has
more than 5 minutes (300 seconds) remaining, it is returned unchanged
with zero network calls and the slot is untouched.  Otherwise exactly
one password-grant exchange is dispatched, and on success the stored and
returned token has `expiresAt = now + expiresIn`, overwriting the
previous cached token. -/
theorem getToken_memoization_and_refresh (tok : Option Token) (now : Int)
    (outcome : TokenFetchOutcome) :
    (∀ t, tok = some t → t.expiresAt - now > 300 →
        getToken tok now outcome =
          { result := .ok t, newToken := some t, httpCalls := 0 }) ∧
    (tokenValid tok now = false → (getToken tok now outcome).httpCalls = 1) ∧
    (∀ at_ tt ei, tokenValid tok now = false → outcome = .ok at_ tt ei →
        getToken tok now outcome =
          { result := .ok { accessToken := at_, tokenType := tt, expiresIn := ei,
                            expiresAt := now + ei },
            newToken := some { accessToken := at_, tokenType := tt, expiresIn := ei,
                               expiresAt := now + ei },
            httpCalls := 1 }) := by
  refine ⟨?_, ?_, ?_⟩
  · rintro t rfl h
    simp [getToken, h]
  · intro hval
    cases tok with
    | none => cases outcome <;> simp [getToken, refreshToken]
    | some t =>
      simp only [tokenValid, decide_eq_false_iff_not] at hval
      cases outcome <;> simp [getToken, refreshToken, hval]
  · rintro at_ tt ei hval rfl
    cases tok with
    | none => simp [getToken, refreshToken]
    | some t =>
      simp only [tokenValid, decide_eq_false_iff_not] at hval
      simp [getToken, refreshToken, hval]

/-- Witness for `getToken_memoization_and_refresh`: at concrete inputs,
a cached token with 3700 seconds remaining is returned unchanged with no
network call, and with no cached token one exchange stores a token
expiring at `0 + 3600`. -/
theorem getToken_memoization_and_refresh_witness :
    getToken (some tokenA) 0 (.netErr "unused")
      = { result := .ok tokenA, newToken := some tokenA, httpCalls := 0 } ∧
    getToken none 0 (.ok "newTok" "Bearer" 3600)
      = { result := .ok { accessToken := "newTok", tokenType := "Bearer",
                          expiresIn := 3600, expiresAt := 3600 },
          newToken := some { accessToken := "newTok", tokenType := "Bearer",
                             expiresIn := 3600, expiresAt := 3600 },
          httpCalls := 1 } := by
  constructor
  · exact (getToken_memoization_and_refresh (some tokenA) 0 (.netErr "unused")).1
      tokenA rfl (by decide)
  · have h := (getToken_memoization_and_refresh none 0
      (.ok "newTok" "Bearer" 3600)).2.2 "newTok" "Bearer" 3600 (by decide) rfl
    simpa using h

/-- Claim C10: `GetSmartLicenseUsage` dereferences `*sa.VirtualAccounts`
before any other work; a nil `VirtualAccounts` always panics, and a
non-nil list never does. -/
theorem getSmartLicenseUsage_nil_dereference
    (fetch : String → Int → Except CCWError LicenseResponse) (fuel : Nat)
    (sa : SmartAccount) :
    (sa.virtualAccounts = none → GetSmartLicenseUsage fetch fuel sa = .panics) ∧
    (∀ vas, sa.virtualAccounts = some vas →
        GetSmartLicenseUsage fetch fuel sa ≠ .panics) := by
  constructor
  · intro h
    simp [GetSmartLicenseUsage, h]
  · intro vas h
    simp only [GetSmartLicenseUsage, h]
    rcases hg : goVAs fetch fuel vas [] [] with _ | ⟨acc, tr⟩ <;> simp

/-- Witness for `getSmartLicenseUsage_nil_dereference`: a smart account
with a nil `VirtualAccounts` pointer panics; the same account with an
empty (but non-nil) list does not. -/
theorem getSmartLicenseUsage_nil_dereference_witness :
    GetSmartLicenseUsage (fun _ _ => .error .errNotFound) 1
        { accountStatus := "Active", accountDomain := "example.com",
          accountName := "Example", accountType := "CUSTOMER", roles := [],
          virtualAccounts := none, licenses := none } = .panics ∧
    GetSmartLicenseUsage (fun _ _ => .error .errNotFound) 1
        { accountStatus := "Active", accountDomain := "example.com",
          accountName := "Example", accountType := "CUSTOMER", roles := [],
          virtualAccounts := some [], licenses := none } ≠ .panics := by
  constructor
  · exact (getSmartLicenseUsage_nil_dereference (fun _ _ => .error .errNotFound) 1
      _).1 rfl
  · exact (getSmartLicenseUsage_nil_dereference (fun _ _ => .error .errNotFound) 1
      _).2 [] rfl

/-- Claim C1: status classification in `makeRequest`.  When the token is
obtained and the transport delivers a response: a 200 body is decoded
(decode failure surfacing as the distinct decode error); each of
400/401/403/404/500 maps to its sentinel error; any non-200 result is
independent of the decoder (the body is never decoded); and any status
outside {200, 400, 401, 403, 404, 500} yields the unknown-upstream error
carrying the raw status text. -/
theorem makeRequest_status_classification {α β : Type} (tok : Option Token)
    (env : MakeReqEnv β) (dec : β → Except String α) (t : Token)
    (res : HTTPResponse β)
    (htok : (getToken tok env.now env.tokenOutcome).result = .ok t)
    (hctx : env.ctxCancelled = false) (hres : env.httpResult = .ok res) :
    (res.statusCode = 200 →
      (makeRequest tok env dec).result =
        match dec res.body with
        | .error msg => .error (.decodeErr msg)
        | .ok v => .ok (some v)) ∧
    (res.statusCode = 400 → (makeRequest tok env dec).result = .error .errBadRequest) ∧
    (res.statusCode = 401 → (makeRequest tok env dec).result = .error .errUnauthorized) ∧
    (res.statusCode = 403 → (makeRequest tok env dec).result = .error .errForbidden) ∧
    (res.statusCode = 404 → (makeRequest tok env dec).result = .error .errNotFound) ∧
    (res.statusCode = 500 → (makeRequest tok env dec).result = .error .errInternalError) ∧
    (res.statusCode ≠ 200 →
      (makeRequest tok env dec).result = .error (classifyStatus res) ∧
      ∀ dec' : β → Except String α,
        (makeRequest tok env dec').result = (makeRequest tok env dec).result) ∧
    (res.statusCode ∉ ([200, 400, 401, 403, 404, 500] : List Nat) →
      (makeRequest tok env dec).result = .error (.unknownErr res.status)) := by
  have hmain : ∀ d : β → Except String α,
      (makeRequest tok env d).result =
        if res.statusCode ≠ 200 then .error (classifyStatus res)
        else if res.statusCode == 201 then .ok none
        else
          match d res.body with
          | .error msg => .error (.decodeErr msg)
          | .ok v => .ok (some v) := by
    intro d
    simp only [makeRequest, htok, hctx, hres, Bool.false_eq_true, if_false]
    split
    · rfl
    · split
      · rfl
      · split <;> rfl
  refine ⟨?_, ?_, ?_, ?_, ?_, ?_, ?_, ?_⟩
  · intro h200
    rw [hmain dec]
    simp [h200]
  · intro h; rw [hmain dec]; simp [h, classifyStatus]
  · intro h; rw [hmain dec]; simp [h, classifyStatus]
  · intro h; rw [hmain dec]; simp [h, classifyStatus]
  · intro h; rw [hmain dec]; simp [h, classifyStatus]
  · intro h; rw [hmain dec]; simp [h, classifyStatus]
  · intro h
    refine ⟨by rw [hmain dec]; simp [h], ?_⟩
    intro dec'
    rw [hmain dec, hmain dec']
    simp [h]
  · intro h
    simp only [List.mem_cons, List.not_mem_nil, or_false, not_or] at h
    obtain ⟨h200, h400, h401, h403, h404, h500⟩ := h
    rw [hmain dec]
    simp [h200, h400, h401, h403, h404, h500, classifyStatus]

/-- Witness for `makeRequest_status_classification`: with a cached valid
token and a delivered 404 response, the result is `ErrNotFound`. -/
theorem makeRequest_status_classification_witness :
    (makeRequest (some tokenA) env404 decUnit).result = .error .errNotFound := by
  exact (makeRequest_status_classification (some tokenA) env404 decUnit tokenA
    { statusCode := 404, status := "404 Not Found", body := "" }
    (by decide) rfl rfl).2.2.2.2.1 rfl

/-- Claim C6 counterexample: with a cached valid token, an empty bucket
and a cancelled context, the event trace of `makeRequest` is
`[limWait, apiHTTP]` — the HTTP dispatch event occurs after the
cancelled limiter wait, refuting "the HTTP dispatch does not proceed
after cancellation". -/
theorem makeRequest_cancelled_still_dispatches :
    (makeRequest (some tokenA) envCancelled decUnit).events
        = [Ev.limWait, Ev.apiHTTP] ∧
    Ev.apiHTTP ∈ (makeRequest (some tokenA) envCancelled decUnit).events := by
  decide

/-- Claim C6 as amended: with an empty bucket the call reaches the
limiter wait, but the source discards `Wait`'s return value, so on a
cancelled context the HTTP dispatch still proceeds (bound to the
cancelled context) and the cancellation surfaces as a transport error
from the HTTP call, not as an abort before dispatch. -/
theorem makeRequest_cancellation_behaviour {α β : Type} (tok : Option Token)
    (env : MakeReqEnv β) (dec : β → Except String α) (t : Token)
    (htok : (getToken tok env.now env.tokenOutcome).result = .ok t)
    (hlim : env.limAvailable = false) (hctx : env.ctxCancelled = true) :
    (makeRequest tok env dec).events =
      List.replicate (getToken tok env.now env.tokenOutcome).httpCalls .tokenHTTP
        ++ [.limWait, .apiHTTP] ∧
    (makeRequest tok env dec).result = .error (.transportErr "context canceled") := by
  simp only [makeRequest, htok, hlim, hctx, Bool.false_eq_true, if_false, if_true]
  exact ⟨List.append_assoc _ _ _, trivial⟩

/-- Witness for `makeRequest_cancellation_behaviour` at the concrete
cancelled environment: no token refresh happens (the cached token is
valid), so the trace is exactly `[limWait, apiHTTP]` and the result is
the cancellation transport error. -/
theorem makeRequest_cancellation_behaviour_witness :
    (makeRequest (some tokenA) envCancelled decUnit).events
        = [Ev.limWait, Ev.apiHTTP] ∧
    (makeRequest (some tokenA) envCancelled decUnit).result
        = .error (.transportErr "context canceled") := by
  have h := makeRequest_cancellation_behaviour (some tokenA) envCancelled decUnit
    tokenA (by decide) rfl rfl
  exact ⟨by rw [h.1]; rfl, h.2⟩

/-- Claim C7 counterexample: with no cached token, the trace of
`makeRequest` begins with the token-exchange POST (`tokenHTTP`) before
any rate-limiter event — `getToken` uses its own `http.Client` and never
touches `c.lim` — so not every outbound HTTP request is preceded by a
rate-limiter acquisition. -/
theorem makeRequest_token_exchange_not_rate_limited :
    (makeRequest none envNoToken decUnit).events
        = [Ev.tokenHTTP, Ev.limAllowConsume, Ev.apiHTTP] ∧
    allDispatchesRateLimited (makeRequest none envNoToken decUnit).events = false := by
  decide

/-- Event trace of `makeRequest` when `getToken` succeeds: the
token-exchange dispatches (if a refresh ran), then exactly one limiter
acquisition (`Allow` or `Wait`), then the API dispatch. -/
theorem makeRequest_events_of_token_ok {α β : Type} (tok : Option Token)
    (env : MakeReqEnv β) (dec : β → Except String α) (t : Token)
    (htok : (getToken tok env.now env.tokenOutcome).result = .ok t) :
    (makeRequest tok env dec).events =
      List.replicate (getToken tok env.now env.tokenOutcome).httpCalls .tokenHTTP
        ++ (if env.limAvailable then [Ev.limAllowConsume] else [Ev.limWait])
        ++ [Ev.apiHTTP] := by
  simp only [makeRequest, htok]
  split
  · rfl
  · split
    · rfl
    · split
      · rfl
      · split <;> rfl

/-- Event trace of `makeRequest` when `getToken` fails: only the
token-exchange dispatches (if a refresh ran); nothing else happens. -/
theorem makeRequest_events_of_token_error {α β : Type} (tok : Option Token)
    (env : MakeReqEnv β) (dec : β → Except String α) (e : CCWError)
    (htok : (getToken tok env.now env.tokenOutcome).result = .error e) :
    (makeRequest tok env dec).events =
      List.replicate (getToken tok env.now env.tokenOutcome).httpCalls .tokenHTTP := by
  simp only [makeRequest, htok]

/-- Leading `tokenHTTP` events do not affect the amended C7 check: they
are neither `apiHTTP` nor limiter acquisitions. -/
theorem apiAcquiredAux_replicate_tokenHTTP (seen : Bool) (n : Nat) (rest : List Ev) :
    apiAcquiredAux seen (List.replicate n .tokenHTTP ++ rest)
      = apiAcquiredAux seen rest := by
  induction n with
  | zero => rfl
  | succ n ih => simpa [List.replicate_succ, apiAcquiredAux, isLimiterAcquire] using ih

/-- Claim C7 as amended: the request dispatched by `makeRequest` itself
(`apiHTTP`) is always preceded by a rate-limiter acquisition, and any
token-exchange dispatches performed by `getToken` come before every
limiter event — the token-exchange POST itself is not rate-limited. -/
theorem makeRequest_api_dispatch_rate_limited {α β : Type} (tok : Option Token)
    (env : MakeReqEnv β) (dec : β → Except String α) :
    apiDispatchesRateLimited (makeRequest tok env dec).events = true ∧
    ∃ rest, (makeRequest tok env dec).events =
      List.replicate (getToken tok env.now env.tokenOutcome).httpCalls .tokenHTTP
        ++ rest := by
  rcases htok : (getToken tok env.now env.tokenOutcome).result with e | t
  · rw [makeRequest_events_of_token_error tok env dec e htok]
    constructor
    · rw [apiDispatchesRateLimited, ← List.append_nil (List.replicate _ _),
        apiAcquiredAux_replicate_tokenHTTP]
      rfl
    · exact ⟨[], (List.append_nil _).symm⟩
  · rw [makeRequest_events_of_token_ok tok env dec t htok]
    constructor
    · rw [List.append_assoc, apiDispatchesRateLimited,
        apiAcquiredAux_replicate_tokenHTTP]
      cases h : env.limAvailable <;> simp [h] <;> rfl
    · exact ⟨_, List.append_assoc _ _ _⟩

/-- Running the inner pagination with a non-empty accumulator and trace
is the run from empty ones with the accumulator and trace prepended. -/
theorem paginateVA_shift (fetch : Int → Except CCWError LicenseResponse)
    (limit : Int) :
    ∀ (fuel : Nat) (offset : Int) (acc : List License) (tr : List Int),
    paginateVA fetch limit fuel offset acc tr
      = (paginateVA fetch limit fuel offset [] []).map
          (fun p => (acc ++ p.1, tr ++ p.2)) := by
  intro fuel
  induction fuel with
  | zero => intro offset acc tr; rfl
  | succ fuel ih =>
    intro offset acc tr
    simp only [paginateVA]
    rcases hf : fetch offset with e | lr <;> simp only []
    · simp
    · by_cases h1 : lr.totalRecords < limit
      · simp [h1]
      · by_cases h2 : offset + limit > lr.totalRecords
        · simp [h1, h2]
        · simp only [h1, h2, if_false]
          rw [ih (offset + limit) (acc ++ lr.licenses) (tr ++ [offset]),
            ih (offset + limit) ([] ++ lr.licenses) ([] ++ [offset])]
          rcases paginateVA fetch limit fuel (offset + limit) [] [] with _ | ⟨l, t2⟩
          · rfl
          · simp [List.append_assoc]

/-- The outer loop over an appended list of virtual accounts is the
sequential composition of the two runs. -/
theorem goVAs_append (fetch : String → Int → Except CCWError LicenseResponse)
    (fuel : Nat) :
    ∀ (xs ys : List VirtualAccount) (acc : List License)
      (tr : List (String × Int)),
    goVAs fetch fuel (xs ++ ys) acc tr
      = match goVAs fetch fuel xs acc tr with
        | none => none
        | some p => goVAs fetch fuel ys p.1 p.2 := by
  intro xs
  induction xs with
  | nil => intro ys acc tr; rfl
  | cons va rest ih =>
    intro ys acc tr
    simp only [List.cons_append, goVAs]
    rcases paginateVA (fetch va.name) 100 fuel 0 acc [] with _ | ⟨acc2, offs⟩
    · rfl
    · exact ih ys acc2 (tr ++ offs.map fun o => (va.name, o))

/-- Running the outer loop with a non-empty accumulator and trace is the
run from empty ones with the accumulator and trace prepended. -/
theorem goVAs_shift (fetch : String → Int → Except CCWError LicenseResponse)
    (fuel : Nat) :
    ∀ (vas : List VirtualAccount) (acc : List License)
      (tr : List (String × Int)),
    goVAs fetch fuel vas acc tr
      = (goVAs fetch fuel vas [] []).map (fun p => (acc ++ p.1, tr ++ p.2)) := by
  intro vas
  induction vas with
  | nil => intro acc tr; simp [goVAs]
  | cons va rest ih =>
    intro acc tr
    simp only [goVAs]
    rw [paginateVA_shift (fetch va.name) 100 fuel 0 acc []]
    rcases paginateVA (fetch va.name) 100 fuel 0 [] [] with _ | ⟨l, offs⟩
    · rfl
    · simp only [Option.map_some', List.nil_append]
      rw [ih (acc ++ l) (tr ++ offs.map fun o => (va.name, o)),
        ih l (offs.map fun o => (va.name, o))]
      rcases goVAs fetch fuel rest [] [] with _ | ⟨l2, tr2⟩
      · rfl
      · simp [List.append_assoc]

/-- Claim C4 counterexample: the source stops on
`lr.TotalRecords < limit`, not on the page returning fewer items than
the page size.  With every page carrying 40 items (fewer than 100) but
reporting `totalRecords = 150`, the loop still fetches a second page at
offset 100 — the trace is `[0, 100]`, not `[0]` as the claim's stop rule
would require. -/
theorem paginateVA_short_page_keeps_fetching :
    fetchShortPages 0 = .ok (pageOf 40 150) ∧
    (pageOf 40 150).licenses.length = 40 ∧
    paginateVA fetchShortPages 100 10 0 [] []
      = some (List.replicate 80 licSample, [0, 100]) := by
  decide

/-- Claim C4 as amended: pagination starts at offset 0 with page size
100, appends each page's items, and stops when the reported
`totalRecords` is less than the page size or the new offset would exceed
`totalRecords` (otherwise it continues at `offset + limit`); for an
upstream reporting `totalRecords = 250` with pages of 100, 100 and 50
items, exactly three pages are fetched (offsets 0, 100, 200) and the
accumulator has exactly 250 items. -/
theorem paginateVA_stop_conditions_and_250_run :
    (∀ (fetch : Int → Except CCWError LicenseResponse) (limit : Int)
       (fuel : Nat) (offset : Int) (acc : List License) (tr : List Int)
       (lr : LicenseResponse), fetch offset = .ok lr →
        lr.totalRecords < limit →
        paginateVA fetch limit (fuel + 1) offset acc tr
          = some (acc ++ lr.licenses, tr ++ [offset])) ∧
    (∀ (fetch : Int → Except CCWError LicenseResponse) (limit : Int)
       (fuel : Nat) (offset : Int) (acc : List License) (tr : List Int)
       (lr : LicenseResponse), fetch offset = .ok lr →
        ¬ lr.totalRecords < limit → offset + limit > lr.totalRecords →
        paginateVA fetch limit (fuel + 1) offset acc tr
          = some (acc ++ lr.licenses, tr ++ [offset])) ∧
    (∀ (fetch : Int → Except CCWError LicenseResponse) (limit : Int)
       (fuel : Nat) (offset : Int) (acc : List License) (tr : List Int)
       (lr : LicenseResponse), fetch offset = .ok lr →
        ¬ lr.totalRecords < limit → ¬ offset + limit > lr.totalRecords →
        paginateVA fetch limit (fuel + 1) offset acc tr
          = paginateVA fetch limit fuel (offset + limit)
              (acc ++ lr.licenses) (tr ++ [offset])) ∧
    GetSmartLicenseUsage fetch250 10 sa250
      = .ok (.ok (List.replicate 250 licSample),
             [("VA-1", 0), ("VA-1", 100), ("VA-1", 200)]) := by
  refine ⟨?_, ?_, ?_, by set_option maxRecDepth 8000 in decide⟩
  · intro fetch limit fuel offset acc tr lr hf h1
    simp [paginateVA, hf, h1]
  · intro fetch limit fuel offset acc tr lr hf h1 h2
    simp [paginateVA, hf, h1, h2]
  · intro fetch limit fuel offset acc tr lr hf h1 h2
    simp [paginateVA, hf, h1, h2]

/-- Witness for `paginateVA_stop_conditions_and_250_run`: the first stop
rule applied to a one-page source reporting `totalRecords = 50` at
offset 0. -/
theorem paginateVA_stop_conditions_witness :
    paginateVA (fun _ => .ok (pageOf 50 50)) 100 1 0 [] []
      = some ([] ++ (pageOf 50 50).licenses, [] ++ [0]) := by
  exact (paginateVA_stop_conditions_and_250_run).1 (fun _ => .ok (pageOf 50 50))
    100 0 0 [] [] (pageOf 50 50) rfl (by decide)

/-- Claim C5: a failing page fetch is not propagated.  The inner loop
stops at the failed page and keeps exactly the licenses accumulated so
far, and whenever the loops complete, `GetSmartLicenseUsage` returns the
accumulator with a nil error — never a hard failure. -/
theorem getSmartLicenseUsage_page_failure_tolerated :
    (∀ (fetch : Int → Except CCWError LicenseResponse) (limit : Int)
       (fuel : Nat) (offset : Int) (acc : List License) (tr : List Int)
       (e : CCWError), fetch offset = .error e →
        paginateVA fetch limit (fuel + 1) offset acc tr
          = some (acc, tr ++ [offset])) ∧
    (∀ (fetch : String → Int → Except CCWError LicenseResponse) (fuel : Nat)
       (sa : SmartAccount) (vas : List VirtualAccount) (acc : List License)
       (tr : List (String × Int)), sa.virtualAccounts = some vas →
        goVAs fetch fuel vas [] [] = some (acc, tr) →
        GetSmartLicenseUsage fetch fuel sa = .ok (.ok acc, tr)) := by
  constructor
  · intro fetch limit fuel offset acc tr e hf
    simp [paginateVA, hf]
  · intro fetch fuel sa vas acc tr hsa hgo
    simp [GetSmartLicenseUsage, hsa, hgo]

/-- Witness for `getSmartLicenseUsage_page_failure_tolerated`: with a
source whose very first page fetch fails, the inner loop returns the
empty accumulator, and the whole operation returns a nil error with the
empty accumulator and the single attempted fetch in its trace. -/
theorem getSmartLicenseUsage_page_failure_tolerated_witness :
    paginateVA (fun _ => .error .errInternalError) 100 1 0 [] []
      = some ([], [] ++ [0]) ∧
    GetSmartLicenseUsage fetchAlwaysFails 1 sa250
      = .ok (.ok [], [("VA-1", 0)]) := by
  constructor
  · exact (getSmartLicenseUsage_page_failure_tolerated).1
      (fun _ => .error .errInternalError) 100 0 0 [] [] .errInternalError rfl
  · exact (getSmartLicenseUsage_page_failure_tolerated).2 fetchAlwaysFails 1 sa250
      [va1] [] [("VA-1", 0)] rfl (by decide)

/-- Claim C9: a page-fetch failure for one virtual account stops
pagination only for that account.  With the virtual-account list split
as `pre ++ va :: post` and `va`'s first page failing, the operation
still runs the remaining accounts: the accumulator is the concatenation
of `pre`'s and `post`'s licenses, and the trace shows `post`'s fetches
after the failed one. -/
theorem getSmartLicenseUsage_va_failure_isolated
    (fetch : String → Int → Except CCWError LicenseResponse) (fuel : Nat)
    (sa : SmartAccount) (pre post : List VirtualAccount) (va : VirtualAccount)
    (e : CCWError) (lpre lpost : List License)
    (trpre trpost : List (String × Int))
    (hsa : sa.virtualAccounts = some (pre ++ va :: post))
    (hfail : fetch va.name 0 = .error e)
    (hpre : goVAs fetch fuel pre [] [] = some (lpre, trpre))
    (hpost : goVAs fetch fuel post [] [] = some (lpost, trpost))
    (hfuel : 0 < fuel) :
    GetSmartLicenseUsage fetch fuel sa
      = .ok (.ok (lpre ++ lpost), trpre ++ [(va.name, 0)] ++ trpost) := by
  obtain ⟨m, rfl⟩ : ∃ m, fuel = m + 1 := ⟨fuel - 1, by omega⟩
  have hp : paginateVA (fetch va.name) 100 (m + 1) 0 lpre [] = some (lpre, [0]) := by
    simp [paginateVA, hfail]
  simp only [GetSmartLicenseUsage, hsa]
  rw [goVAs_append, hpre]
  simp only [goVAs, hp]
  rw [goVAs_shift, hpost]
  simp [List.append_assoc]

/-- Witness for `getSmartLicenseUsage_va_failure_isolated`: `va1`'s
first page fails but `va2`'s one-item page is still fetched and its
license included. -/
theorem getSmartLicenseUsage_va_failure_isolated_witness :
    GetSmartLicenseUsage fetchVA1Fails 1 saTwoVAs
      = .ok (.ok ([] ++ [licSample]), [] ++ [("VA-1", 0)] ++ [("VA-2", 0)]) := by
  exact getSmartLicenseUsage_va_failure_isolated fetchVA1Fails 1 saTwoVAs
    [] [va2] va1 .errInternalError [] [licSample] [] [("VA-2", 0)]
    rfl rfl rfl (by decide) (by decide)

/-- Claim C8: the consumption-report decoding accepts the upstream's
misspelled wire name.  An `EAAccount` object populates
`virtualAccounts` exactly from the key `vitualAccounts` (the source's
tag), while the correctly spelled key `virtualAccounts` leaves the field
empty; the same holds end to end through
`GetEASmartAccountSubscriptionConsumptionReport` on a 200 response. -/
theorem eaReport_accepts_misspelled_virtual_accounts_key (i : Int) (s : String)
    (vas : List JValue) :
    (decodeEAAccount (.obj [("smartAccountId", .num i),
        ("smartAccountName", .str s),
        ("vitualAccounts", .arr vas)])).virtualAccounts
      = vas.map decodeEAVirtualAccount ∧
    (decodeEAAccount (.obj [("smartAccountId", .num i),
        ("smartAccountName", .str s),
        ("virtualAccounts", .arr vas)])).virtualAccounts = [] ∧
    (GetEASmartAccountSubscriptionConsumptionReport (some tokenA)
        (envEA (eaBody "vitualAccounts"))).result
      = .ok (some (eaRespWith [eaVADecoded])) ∧
    (GetEASmartAccountSubscriptionConsumptionReport (some tokenA)
        (envEA (eaBody "virtualAccounts"))).result
      = .ok (some (eaRespWith [])) := by
  exact ⟨rfl, rfl, by decide, by decide⟩

end SmartAccounts
